import Mathlib

/-!
Verification of the DRTIO repeater state machine
(`artiq/firmware/satman/repeater.rs`).

The Rust code is embedded shallowly.  External effects are supplied as
explicit environment values:

* `rep_link_rx_up`, `clock::get_ms` and `drtioaux::recv_link` observed in
  one iteration of the `recv_aux_timeout` poll loop become a `PollObs`;
* one request/acknowledge transaction (a `send_link` followed by a
  `recv_aux_timeout` call) draws from a `TxnEnv`;
* one `service` call draws from a `ServiceEnv`.

Every operation returns its result together with the list of aux packets
it sent; `service` additionally returns the log entries it emitted.  An
`unwrap` on a failed send becomes the explicit outcome `panicked`; a poll
loop that does not resolve within the supplied finite observation trace
becomes `unresolved`.
-/

/-- Modelled from the spec: the control-packet vocabulary of
`board_artiq::drtioaux` (not under `src/`); §3 lists exactly the variants
the repeater consumes or produces.  Hop arrays are modelled as lists. -/
inductive Packet where
  | EchoRequest
  | EchoReply
  | TSCAck
  | RoutingSetPath (destination : Nat) (hops : List Nat)
  | RoutingSetRank (rank : Nat)
  | RoutingAck
  deriving DecidableEq

/-- `RepeaterState` from the source, with `u16`/`u64` payloads as `Nat`. -/
inductive RepeaterState where
  | Down
  | SendPing (ping_count : Nat)
  | WaitPingReply (ping_count : Nat) (timeout : Nat)
  | Up
  | Failed
  deriving DecidableEq

/-- Result of one non-blocking `drtioaux::recv_link` call:
`Ok(None)`, `Ok(Some(packet))` or `Err(_)`. -/
inductive RecvResult where
  | ok_none
  | ok_some (p : Packet)
  | err
  deriving DecidableEq

/-- What one iteration of the `recv_aux_timeout` poll loop observes:
the link status, the current clock, and the receive outcome. -/
structure PollObs where
  linkUp : Bool
  now : Nat
  recv : RecvResult
  deriving DecidableEq

/-- Environment of one aux transaction: the `send_link` outcome, the
clock value read at entry of `recv_aux_timeout`, and the per-iteration
observations of its poll loop. -/
structure TxnEnv where
  sendOk : Bool
  entryNow : Nat
  obs : List PollObs
  deriving DecidableEq

/-- Default transaction environment (successful send, empty poll trace),
used when an environment list runs out of entries. -/
def defaultTxn : TxnEnv := ⟨true, 0, []⟩

/-- Environment of one `service` call: link status, clock, the
`send_link` outcome of the `SendPing` arm, the non-blocking receive of
the `WaitPingReply` arm, and the transaction environments consumed by
the bring-up sequence. -/
structure ServiceEnv where
  linkUp : Bool
  now : Nat
  sendOk : Bool
  recv : RecvResult
  syncEnv : TxnEnv
  routeEnvs : List TxnEnv
  rankEnv : TxnEnv
  deriving DecidableEq

/-- Error strings returned by the source. -/
def errLinkDown : String := "link went down"

def errTimeout : String := "timeout"

def errAuxPacket : String := "aux packet error"

def errUnexpectedReply : String := "unexpected reply"

/-- Log entries emitted by `service` (via `info!` / `error!`). -/
inductive LogMsg where
  | linkRxUp
  | linkDownDuringPing
  | remoteReplied (ping_count : Nat)
  | failedSyncTSC (e : String)
  | pingFailed
  | linkIsDown
  deriving DecidableEq

deriving instance DecidableEq for Except

/-- Outcome of `sync_tsc` / `set_path` / `set_rank` /
`load_routing_table`: the `Result` value together with the aux packets
whose send was attempted, or `panicked` (an `unwrap` on a failed send),
or `unresolved` (the poll loop did not exit within the supplied trace). -/
inductive OpOut where
  | panicked (sent : List Packet)
  | unresolved (sent : List Packet)
  | ret (r : Except String Unit) (sent : List Packet)
  deriving DecidableEq

/-- `true` iff the operation returned `Ok`. -/
def OpOut.isOk : OpOut → Bool
  | .ret (.ok _) _ => true
  | _ => false

/-- The packets whose send was attempted during the operation. -/
def OpOut.sent : OpOut → List Packet
  | .panicked s => s
  | .unresolved s => s
  | .ret _ s => s

/-- Outcome of one `service` call: the state after the call returns
(`done`), the packets sent and the log entries emitted; `panicked` and
`unresolved` as in `OpOut`. -/
inductive SvcOut where
  | panicked (sent : List Packet) (logs : List LogMsg)
  | unresolved (sent : List Packet) (logs : List LogMsg)
  | done (st : RepeaterState) (sent : List Packet) (logs : List LogMsg)
  deriving DecidableEq

/-- Prepend a log entry to a `service` outcome. -/
def SvcOut.withLog (m : LogMsg) : SvcOut → SvcOut
  | .panicked s l => .panicked s (m :: l)
  | .unresolved s l => .unresolved s (m :: l)
  | .done st s l => .done st s (m :: l)

/-- The poll loop of `Repeater::recv_aux_timeout`, one `PollObs` per
iteration.  `max_time` is fixed for the whole loop.  Per iteration: link
down returns the link-down error; a clock past `max_time` returns the
timeout error; otherwise a received packet is returned as success
whatever it is, a transport error is returned as the aux-packet error,
and no packet continues the loop.  `none` = the trace ended before the
loop exited. -/
def recv_aux_timeout_loop (max_time : Nat) :
    List PollObs → Option (Except String Packet)
  | [] => none
  | o :: rest =>
    if o.linkUp = false then
      some (Except.error errLinkDown)
    else if o.now > max_time then
      some (Except.error errTimeout)
    else
      match o.recv with
      | .ok_some p => some (Except.ok p)
      | .ok_none => recv_aux_timeout_loop max_time rest
      | .err => some (Except.error errAuxPacket)

/-- `Repeater::recv_aux_timeout`: the deadline `max_time` is computed
once at entry as the entry clock plus the timeout. -/
def recv_aux_timeout (entryNow timeout : Nat) (obs : List PollObs) :
    Option (Except String Packet) :=
  recv_aux_timeout_loop (entryNow + timeout) obs

/-- Body of `Repeater::sync_tsc` past the `Up` guard: trigger the
hardware timestamp broadcast (a bounded register handshake, no aux
traffic), then await a reply for 10000 ms; only `TSCAck` is success. -/
def sync_tsc_run (env : TxnEnv) : OpOut :=
  match recv_aux_timeout env.entryNow 10000 env.obs with
  | none => .unresolved []
  | some (Except.error e) => .ret (Except.error e) []
  | some (Except.ok reply) =>
    if reply = Packet.TSCAck then .ret (Except.ok ()) []
    else .ret (Except.error errUnexpectedReply) []

/-- `Repeater::sync_tsc`: immediate `Ok` unless the state is `Up`. -/
def sync_tsc (st : RepeaterState) (env : TxnEnv) : OpOut :=
  if st ≠ RepeaterState.Up then .ret (Except.ok ()) []
  else sync_tsc_run env

/-- Body of `Repeater::set_path` past the `Up` guard: send
`RoutingSetPath` (`unwrap` on the send), await a reply for 200 ms,
require `RoutingAck`. -/
def set_path_run (destination : Nat) (hops : List Nat) (env : TxnEnv) : OpOut :=
  let pkt := Packet.RoutingSetPath destination hops
  if env.sendOk = false then .panicked [pkt]
  else
    match recv_aux_timeout env.entryNow 200 env.obs with
    | none => .unresolved [pkt]
    | some (Except.error e) => .ret (Except.error e) [pkt]
    | some (Except.ok reply) =>
      if reply ≠ Packet.RoutingAck then .ret (Except.error errUnexpectedReply) [pkt]
      else .ret (Except.ok ()) [pkt]

/-- `Repeater::set_path`: immediate `Ok` unless the state is `Up`. -/
def set_path (st : RepeaterState) (destination : Nat) (hops : List Nat)
    (env : TxnEnv) : OpOut :=
  if st ≠ RepeaterState.Up then .ret (Except.ok ()) []
  else set_path_run destination hops env

/-- Body of `Repeater::set_rank` past the `Up` guard: send
`RoutingSetRank` (`unwrap` on the send), await a reply for 200 ms,
require `RoutingAck`. -/
def set_rank_run (rank : Nat) (env : TxnEnv) : OpOut :=
  let pkt := Packet.RoutingSetRank rank
  if env.sendOk = false then .panicked [pkt]
  else
    match recv_aux_timeout env.entryNow 200 env.obs with
    | none => .unresolved [pkt]
    | some (Except.error e) => .ret (Except.error e) [pkt]
    | some (Except.ok reply) =>
      if reply ≠ Packet.RoutingAck then .ret (Except.error errUnexpectedReply) [pkt]
      else .ret (Except.ok ()) [pkt]

/-- `Repeater::set_rank`: immediate `Ok` unless the state is `Up`. -/
def set_rank (st : RepeaterState) (rank : Nat) (env : TxnEnv) : OpOut :=
  if st ≠ RepeaterState.Up then .ret (Except.ok ()) []
  else set_rank_run rank env

/-- The loop of `Repeater::load_routing_table`, entry `i` onwards: call
`set_path` for each destination in table order with the `?` operator,
drawing one transaction environment per call.  The `u8` cast of the
destination index is `i % 256`.  Modelled from the spec for the table
shape: `drtio_routing::RoutingTable` (not under `src/`) is a fixed-size
collection, one hop sequence per destination, here a list iterated in
destination order. -/
def load_rt_go (st : RepeaterState) (i : Nat) :
    List (List Nat) → List TxnEnv → OpOut
  | [], _ => .ret (Except.ok ()) []
  | hops :: rest, envs =>
    match set_path st (i % 256) hops (envs.headD defaultTxn) with
    | .panicked s => .panicked s
    | .unresolved s => .unresolved s
    | .ret (Except.error e) s => .ret (Except.error e) s
    | .ret (Except.ok _) s =>
      match load_rt_go st (i + 1) rest envs.tail with
      | .panicked s2 => .panicked (s ++ s2)
      | .unresolved s2 => .unresolved (s ++ s2)
      | .ret r s2 => .ret r (s ++ s2)

/-- `Repeater::load_routing_table`. -/
def load_routing_table (st : RepeaterState) (rt : List (List Nat))
    (envs : List TxnEnv) : OpOut :=
  load_rt_go st 0 rt envs

/-- The bring-up sequence of the `EchoReply` branch of
`Repeater::service`, starting from the state `st1` just assigned
(`self.state = RepeaterState::Up` in the source): TSC sync, then routing
table, then rank; the first failure logs and lands in `Failed`; on
success the state stays `st1`. -/
def bringup (st1 : RepeaterState) (rt : List (List Nat)) (rank : Nat)
    (env : ServiceEnv) : SvcOut :=
  match sync_tsc st1 env.syncEnv with
  | .panicked s => .panicked s []
  | .unresolved s => .unresolved s []
  | .ret (Except.error e) s => .done RepeaterState.Failed s [.failedSyncTSC e]
  | .ret (Except.ok _) s =>
    match load_routing_table st1 rt env.routeEnvs with
    | .panicked s2 => .panicked (s ++ s2) []
    | .unresolved s2 => .unresolved (s ++ s2) []
    | .ret (Except.error e) s2 =>
      .done RepeaterState.Failed (s ++ s2) [.failedSyncTSC e]
    | .ret (Except.ok _) s2 =>
      match set_rank st1 rank env.rankEnv with
      | .panicked s3 => .panicked (s ++ s2 ++ s3) []
      | .unresolved s3 => .unresolved (s ++ s2 ++ s3) []
      | .ret (Except.error e) s3 =>
        .done RepeaterState.Failed (s ++ s2 ++ s3) [.failedSyncTSC e]
      | .ret (Except.ok _) s3 => .done st1 (s ++ s2 ++ s3) []

/-- `Repeater::service`, as a transition on `RepeaterState`.  The
`ping_count` increment is `u16` arithmetic (`% 65536`).  In the
`WaitPingReply` arm, only `Ok(Some(EchoReply))` enters the bring-up
branch; every other receive outcome (no packet, another packet, or a
transport error) falls through to the timeout check. -/
def service (st : RepeaterState) (rt : List (List Nat)) (rank : Nat)
    (env : ServiceEnv) : SvcOut :=
  match st with
  | .Down =>
    if env.linkUp then .done (.SendPing 0) [] [.linkRxUp]
    else .done .Down [] []
  | .SendPing ping_count =>
    if env.linkUp then
      if env.sendOk then
        .done (.WaitPingReply ((ping_count + 1) % 65536) (env.now + 100))
          [.EchoRequest] []
      else .panicked [.EchoRequest] []
    else .done .Down [] [.linkDownDuringPing]
  | .WaitPingReply ping_count timeout =>
    if env.linkUp then
      match env.recv with
      | .ok_some .EchoReply =>
        (bringup RepeaterState.Up rt rank env).withLog (.remoteReplied ping_count)
      | _ =>
        if env.now > timeout then
          if ping_count > 200 then .done .Failed [] [.pingFailed]
          else .done (.SendPing ping_count) [] []
        else .done (.WaitPingReply ping_count timeout) [] []
    else .done .Down [] [.linkDownDuringPing]
  | .Up =>
    if env.linkUp then .done .Up [] [] else .done .Down [] [.linkIsDown]
  | .Failed =>
    if env.linkUp then .done .Failed [] [] else .done .Down [] [.linkIsDown]

/-- The `Repeater` struct: link index, aux channel number, state. -/
structure Repeater where
  repno : Nat
  auxno : Nat
  state : RepeaterState
  deriving DecidableEq

/-- `Repeater::new` (`has_drtio_routing`): `auxno = repno + 1` in `u8`
arithmetic. -/
def Repeater.new (repno : Nat) : Repeater :=
  ⟨repno, (repno + 1) % 256, RepeaterState.Down⟩

/-- The derived `Default` for `Repeater`: both `u8` fields default to 0
and `RepeaterState` defaults to `Down` (its `Default` impl). -/
def Repeater.defaultRep : Repeater :=
  ⟨0, 0, RepeaterState.Down⟩

/-- `Repeater::new` in the `not(has_drtio_routing)` configuration:
`Repeater::default()`. -/
def Repeater.newNoRouting (_repno : Nat) : Repeater :=
  Repeater.defaultRep

/-- The expected `RoutingSetPath` packets for a table, destinations
numbered from `i` (with the `u8` cast). -/
def routing_pkts (i : Nat) : List (List Nat) → List Packet
  | [] => []
  | hops :: rest => Packet.RoutingSetPath (i % 256) hops :: routing_pkts (i + 1) rest

/-- The `set_path` call the routing-table loop performs for entry `j`. -/
def set_path_at (rt : List (List Nat)) (envs : List TxnEnv) (j : Nat) : OpOut :=
  set_path RepeaterState.Up (j % 256) (rt.getD j []) (envs.getD j defaultTxn)

/-- Reachability invariant of the probe counter: at most 200 when a
probe is about to be sent, at most 201 while awaiting a reply. -/
def pingInv : RepeaterState → Prop
  | .SendPing n => n ≤ 200
  | .WaitPingReply n _ => n ≤ 201
  | _ => True

/-- A service environment in which the link is up, an `EchoReply` is
received, and the whole bring-up sequence succeeds. -/
def envAllOk : ServiceEnv :=
  ⟨true, 0, true, RecvResult.ok_some Packet.EchoReply,
   ⟨true, 0, [⟨true, 0, RecvResult.ok_some Packet.TSCAck⟩]⟩, [],
   ⟨true, 0, [⟨true, 0, RecvResult.ok_some Packet.RoutingAck⟩]⟩⟩

/-- A service environment in which an `EchoReply` is received but the
TSC synchronization gets an `EchoReply` instead of a `TSCAck`. -/
def envSyncWrongReply : ServiceEnv :=
  ⟨true, 0, true, RecvResult.ok_some Packet.EchoReply,
   ⟨true, 0, [⟨true, 0, RecvResult.ok_some Packet.EchoReply⟩]⟩, [], defaultTxn⟩

/-- A service environment in which the non-blocking receive of the
`WaitPingReply` arm reports a transport error while the ping deadline
has not yet passed. -/
def envRecvErr : ServiceEnv :=
  ⟨true, 50, true, RecvResult.err, defaultTxn, [], defaultTxn⟩

/-! ## Helper lemmas -/

theorem withLog_done (m : LogMsg) (out : SvcOut) (st' : RepeaterState)
    (s : List Packet) (l : List LogMsg)
    (h : out.withLog m = SvcOut.done st' s l) :
    ∃ l0, out = SvcOut.done st' s l0 ∧ l = m :: l0 := by
  cases out with
  | panicked s0 l0 => simp [SvcOut.withLog] at h
  | unresolved s0 l0 => simp [SvcOut.withLog] at h
  | done st0 s0 l0 =>
    simp only [SvcOut.withLog, SvcOut.done.injEq] at h
    obtain ⟨h1, h2, h3⟩ := h
    exact ⟨l0, by rw [h1, h2], h3.symm⟩

theorem set_path_up_sent (d : Nat) (hops : List Nat) (env : TxnEnv) :
    (set_path RepeaterState.Up d hops env).sent =
      [Packet.RoutingSetPath d hops] := by
  simp only [set_path, set_path_run, ne_eq, not_true_eq_false, if_false]
  split
  · rfl
  · split
    · rfl
    · rfl
    · split <;> rfl

theorem set_rank_up_sent (r : Nat) (env : TxnEnv) :
    (set_rank RepeaterState.Up r env).sent = [Packet.RoutingSetRank r] := by
  simp only [set_rank, set_rank_run, ne_eq, not_true_eq_false, if_false]
  split
  · rfl
  · split
    · rfl
    · rfl
    · split <;> rfl

theorem sync_tsc_no_panic (st : RepeaterState) (env : TxnEnv)
    (s : List Packet) : sync_tsc st env ≠ OpOut.panicked s := by
  simp only [sync_tsc, sync_tsc_run]
  split
  · simp
  · split
    · simp
    · simp
    · split <;> simp

theorem set_path_no_panic (d : Nat) (hops : List Nat) (env : TxnEnv)
    (h : env.sendOk = true) (s : List Packet) :
    set_path RepeaterState.Up d hops env ≠ OpOut.panicked s := by
  simp only [set_path, set_path_run, ne_eq, not_true_eq_false, if_false, h]
  simp only [Bool.true_eq_false, if_false]
  split
  · simp
  · simp
  · split <;> simp

theorem set_rank_no_panic (r : Nat) (env : TxnEnv)
    (h : env.sendOk = true) (s : List Packet) :
    set_rank RepeaterState.Up r env ≠ OpOut.panicked s := by
  simp only [set_rank, set_rank_run, ne_eq, not_true_eq_false, if_false, h]
  simp only [Bool.true_eq_false, if_false]
  split
  · simp
  · simp
  · split <;> simp

theorem load_rt_go_not_up (st : RepeaterState) (h : st ≠ RepeaterState.Up)
    (rt : List (List Nat)) :
    ∀ (i : Nat) (envs : List TxnEnv),
      load_rt_go st i rt envs = OpOut.ret (Except.ok ()) [] := by
  induction rt with
  | nil => intro i envs; rfl
  | cons hops rest ih =>
    intro i envs
    simp [load_rt_go, set_path, h, ih]

theorem load_rt_go_no_panic (rt : List (List Nat)) :
    ∀ (i : Nat) (envs : List TxnEnv),
      (∀ e ∈ envs, e.sendOk = true) →
      ∀ s, load_rt_go RepeaterState.Up i rt envs ≠ OpOut.panicked s := by
  induction rt with
  | nil => intro i envs _ s; simp [load_rt_go]
  | cons hops rest ih =>
    intro i envs h s
    have hhead : (envs.headD defaultTxn).sendOk = true := by
      cases envs with
      | nil => rfl
      | cons e es => exact h e (List.mem_cons_self e es)
    have htail : ∀ e ∈ envs.tail, e.sendOk = true := by
      intro e he
      cases envs with
      | nil => cases he
      | cons e0 es => exact h e (List.mem_cons_of_mem e0 he)
    simp only [load_rt_go]
    rcases hsp : set_path RepeaterState.Up (i % 256) hops (envs.headD defaultTxn)
      with s1 | s1 | ⟨r1, s1⟩
    · exact absurd hsp (set_path_no_panic _ _ _ hhead _)
    · simp
    · cases r1 with
      | error e => simp
      | ok u =>
        rcases h2 : load_rt_go RepeaterState.Up (i + 1) rest envs.tail
          with s2 | s2 | ⟨r2, s2⟩
        · exact absurd h2 (ih (i + 1) envs.tail htail s2)
        · simp [h2]
        · simp [h2]

theorem bringup_no_panic (rt : List (List Nat)) (rank : Nat) (env : ServiceEnv)
    (hrank : env.rankEnv.sendOk = true)
    (hroute : ∀ e ∈ env.routeEnvs, e.sendOk = true)
    (s : List Packet) (l : List LogMsg) :
    bringup RepeaterState.Up rt rank env ≠ SvcOut.panicked s l := by
  simp only [bringup]
  rcases h1 : sync_tsc RepeaterState.Up env.syncEnv with s1 | s1 | ⟨r1, s1⟩
  · exact absurd h1 (sync_tsc_no_panic _ _ _)
  · simp
  · cases r1 with
    | error e => simp
    | ok u =>
      rcases h2 : load_routing_table RepeaterState.Up rt env.routeEnvs
        with s2 | s2 | ⟨r2, s2⟩
      · exact absurd h2 (load_rt_go_no_panic rt 0 env.routeEnvs hroute s2)
      · simp
      · cases r2 with
        | error e => simp
        | ok u2 =>
          rcases h3 : set_rank RepeaterState.Up rank env.rankEnv
            with s3 | s3 | ⟨r3, s3⟩
          · exact absurd h3 (set_rank_no_panic _ _ hrank _)
          · simp
          · cases r3 <;> simp

theorem bringup_done_characterize (rt : List (List Nat)) (rank : Nat)
    (env : ServiceEnv) (st' : RepeaterState) (s : List Packet) (l : List LogMsg)
    (h : bringup RepeaterState.Up rt rank env = SvcOut.done st' s l) :
    (st' = RepeaterState.Up ∨ st' = RepeaterState.Failed) ∧
    (st' = RepeaterState.Up ↔
      (sync_tsc RepeaterState.Up env.syncEnv).isOk = true ∧
      (load_routing_table RepeaterState.Up rt env.routeEnvs).isOk = true ∧
      (set_rank RepeaterState.Up rank env.rankEnv).isOk = true) := by
  rcases h1 : sync_tsc RepeaterState.Up env.syncEnv with s1 | s1 | ⟨r1, s1⟩
  · simp [bringup, h1] at h
  · simp [bringup, h1] at h
  · cases r1 with
    | error e =>
      simp only [bringup, h1, SvcOut.done.injEq] at h
      obtain ⟨hst, -, -⟩ := h
      subst hst
      refine ⟨Or.inr rfl, ?_, ?_⟩
      · intro hup; exact absurd hup (by decide)
      · rintro ⟨ha, -, -⟩
        simp [OpOut.isOk] at ha
    | ok u =>
      cases u
      rcases h2 : load_routing_table RepeaterState.Up rt env.routeEnvs
        with s2 | s2 | ⟨r2, s2⟩
      · simp [bringup, h1, h2] at h
      · simp [bringup, h1, h2] at h
      · cases r2 with
        | error e =>
          simp only [bringup, h1, h2, SvcOut.done.injEq] at h
          obtain ⟨hst, -, -⟩ := h
          subst hst
          refine ⟨Or.inr rfl, ?_, ?_⟩
          · intro hup; exact absurd hup (by decide)
          · rintro ⟨-, hb, -⟩
            simp [OpOut.isOk] at hb
        | ok u2 =>
          cases u2
          rcases h3 : set_rank RepeaterState.Up rank env.rankEnv
            with s3 | s3 | ⟨r3, s3⟩
          · simp [bringup, h1, h2, h3] at h
          · simp [bringup, h1, h2, h3] at h
          · cases r3 with
            | error e =>
              simp only [bringup, h1, h2, h3, SvcOut.done.injEq] at h
              obtain ⟨hst, -, -⟩ := h
              subst hst
              refine ⟨Or.inr rfl, ?_, ?_⟩
              · intro hup; exact absurd hup (by decide)
              · rintro ⟨-, -, hc⟩
                simp [OpOut.isOk] at hc
            | ok u3 =>
              cases u3
              simp only [bringup, h1, h2, h3, SvcOut.done.injEq] at h
              obtain ⟨hst, -, -⟩ := h
              subst hst
              refine ⟨Or.inl rfl, ?_⟩
              simp [h1, h2, h3, OpOut.isOk]

/-! ## Claim theorems -/

/-- C1: in `WaitPingReply` with the link up and an `EchoReply` received,
whenever the `service` call returns, the state is `Up` exactly when the
TSC sync, the routing-table load and the rank set all succeed in that
order, and `Failed` otherwise; it is never `WaitPingReply` or any other
variant. -/
theorem echo_reply_lands_up_or_failed (n t : Nat) (rt : List (List Nat))
    (rank : Nat) (env : ServiceEnv) (st' : RepeaterState) (sent : List Packet)
    (logs : List LogMsg) (hlink : env.linkUp = true)
    (hrecv : env.recv = RecvResult.ok_some Packet.EchoReply)
    (hdone : service (RepeaterState.WaitPingReply n t) rt rank env =
      SvcOut.done st' sent logs) :
    (st' = RepeaterState.Up ∨ st' = RepeaterState.Failed) ∧
    (st' = RepeaterState.Up ↔
      (sync_tsc RepeaterState.Up env.syncEnv).isOk = true ∧
      (load_routing_table RepeaterState.Up rt env.routeEnvs).isOk = true ∧
      (set_rank RepeaterState.Up rank env.rankEnv).isOk = true) := by
  simp only [service, hlink, hrecv, if_true] at hdone
  obtain ⟨l0, hb, -⟩ := withLog_done _ _ _ _ _ hdone
  exact bringup_done_characterize rt rank env st' sent l0 hb

/-- Witness for C1 at a concrete environment in which every bring-up
step succeeds. -/
theorem echo_reply_lands_up_or_failed_witness :
    (RepeaterState.Up = RepeaterState.Up ∨
      RepeaterState.Up = RepeaterState.Failed) ∧
    (RepeaterState.Up = RepeaterState.Up ↔
      (sync_tsc RepeaterState.Up envAllOk.syncEnv).isOk = true ∧
      (load_routing_table RepeaterState.Up [] envAllOk.routeEnvs).isOk = true ∧
      (set_rank RepeaterState.Up 0 envAllOk.rankEnv).isOk = true) :=
  echo_reply_lands_up_or_failed 1 50 [] 0 envAllOk RepeaterState.Up
    [Packet.RoutingSetRank 0] [LogMsg.remoteReplied 1] rfl rfl rfl

/-- C2: from every state other than `Down`, a `service` call that sees
the link down moves the state to `Down`. -/
theorem link_down_forces_down (st : RepeaterState) (rt : List (List Nat))
    (rank : Nat) (env : ServiceEnv) (hst : st ≠ RepeaterState.Down)
    (hlink : env.linkUp = false) :
    ∃ logs, service st rt rank env = SvcOut.done RepeaterState.Down [] logs := by
  cases st with
  | Down => exact absurd rfl hst
  | SendPing n => exact ⟨[LogMsg.linkDownDuringPing], by simp [service, hlink]⟩
  | WaitPingReply n t =>
    exact ⟨[LogMsg.linkDownDuringPing], by simp [service, hlink]⟩
  | Up => exact ⟨[LogMsg.linkIsDown], by simp [service, hlink]⟩
  | Failed => exact ⟨[LogMsg.linkIsDown], by simp [service, hlink]⟩

/-- Witness for C2 at a concrete input. -/
theorem link_down_forces_down_witness :
    ∃ logs, service (RepeaterState.SendPing 5) [] 0
      ⟨false, 0, true, RecvResult.ok_none, defaultTxn, [], defaultTxn⟩ =
      SvcOut.done RepeaterState.Down [] logs :=
  link_down_forces_down (RepeaterState.SendPing 5) [] 0
    ⟨false, 0, true, RecvResult.ok_none, defaultTxn, [], defaultTxn⟩
    (by decide) rfl

/-- C5: `recv_aux_timeout` computes its deadline once at entry as the
entry clock plus the timeout; each poll iteration returns the link-down
error if the link is down, else the timeout error if the clock is past
the deadline, else the transport error if the aux channel reports one,
else success with whatever packet arrived, and only continues when no
packet is available. -/
theorem recv_aux_timeout_behaviour :
    (∀ entryNow timeout obs,
       recv_aux_timeout entryNow timeout obs =
         recv_aux_timeout_loop (entryNow + timeout) obs) ∧
    (∀ mt (o : PollObs) rest, o.linkUp = false →
       recv_aux_timeout_loop mt (o :: rest) = some (Except.error errLinkDown)) ∧
    (∀ mt (o : PollObs) rest, o.linkUp = true → o.now > mt →
       recv_aux_timeout_loop mt (o :: rest) = some (Except.error errTimeout)) ∧
    (∀ mt (o : PollObs) rest, o.linkUp = true → ¬ o.now > mt →
       o.recv = RecvResult.err →
       recv_aux_timeout_loop mt (o :: rest) = some (Except.error errAuxPacket)) ∧
    (∀ mt (o : PollObs) rest p, o.linkUp = true → ¬ o.now > mt →
       o.recv = RecvResult.ok_some p →
       recv_aux_timeout_loop mt (o :: rest) = some (Except.ok p)) ∧
    (∀ mt (o : PollObs) rest, o.linkUp = true → ¬ o.now > mt →
       o.recv = RecvResult.ok_none →
       recv_aux_timeout_loop mt (o :: rest) = recv_aux_timeout_loop mt rest) := by
  refine ⟨?_, ?_, ?_, ?_, ?_, ?_⟩
  · intro entryNow timeout obs; rfl
  · intro mt o rest h; simp [recv_aux_timeout_loop, h]
  · intro mt o rest h1 h2; simp [recv_aux_timeout_loop, h1, h2]
  · intro mt o rest h1 h2 h3; simp [recv_aux_timeout_loop, h1, h2, h3]
  · intro mt o rest p h1 h2 h3; simp [recv_aux_timeout_loop, h1, h2, h3]
  · intro mt o rest h1 h2 h3; simp [recv_aux_timeout_loop, h1, h2, h3]

/-- Witness for C5: a packet of any identity (here an `EchoRequest`) is
returned as success. -/
theorem recv_aux_timeout_behaviour_witness :
    recv_aux_timeout_loop 15 [⟨true, 3, RecvResult.ok_some Packet.EchoRequest⟩] =
      some (Except.ok Packet.EchoRequest) :=
  recv_aux_timeout_behaviour.2.2.2.2.1 15
    ⟨true, 3, RecvResult.ok_some Packet.EchoRequest⟩ [] Packet.EchoRequest
    rfl (by decide) rfl

/-- C6: with the state anything other than `Up`, `sync_tsc`,
`set_path`, `set_rank` and `load_routing_table` return success without
sending any packet. -/
theorem not_up_ops_are_noops (st : RepeaterState)
    (hst : st ≠ RepeaterState.Up) :
    (∀ env, sync_tsc st env = OpOut.ret (Except.ok ()) []) ∧
    (∀ d hops env, set_path st d hops env = OpOut.ret (Except.ok ()) []) ∧
    (∀ r env, set_rank st r env = OpOut.ret (Except.ok ()) []) ∧
    (∀ rt envs, load_routing_table st rt envs = OpOut.ret (Except.ok ()) []) := by
  refine ⟨?_, ?_, ?_, ?_⟩
  · intro env; simp [sync_tsc, hst]
  · intro d hops env; simp [set_path, hst]
  · intro r env; simp [set_rank, hst]
  · intro rt envs; exact load_rt_go_not_up st hst rt 0 envs

/-- Witness for C6 at the `Down` state. -/
theorem not_up_ops_are_noops_witness :
    sync_tsc RepeaterState.Down defaultTxn = OpOut.ret (Except.ok ()) [] :=
  (not_up_ops_are_noops RepeaterState.Down (by decide)).1 defaultTxn

/-- C8 counterexample: the derived `Default` creates a `Repeater` with
`repno = 0` and `auxno = 0`, violating `aux_channel = index + 1`. -/
theorem default_repeater_violates_aux_invariant :
    ¬ (Repeater.defaultRep.auxno = Repeater.defaultRep.repno + 1) := by
  decide

/-- C8 amended: `Repeater::new` establishes `auxno = repno + 1` for
every index below 255 (`u8` wrap); the derived `Default`, used by the
`not(has_drtio_routing)` constructor, yields `repno = 0, auxno = 0`
instead. -/
theorem new_repeater_aux_channel (repno : Nat) (h : repno < 255) :
    (Repeater.new repno).auxno = (Repeater.new repno).repno + 1 ∧
    Repeater.newNoRouting repno = Repeater.defaultRep ∧
    Repeater.defaultRep.auxno = 0 ∧ Repeater.defaultRep.repno = 0 := by
  refine ⟨?_, rfl, rfl, rfl⟩
  show (repno + 1) % 256 = repno + 1
  omega

/-- Witness for the amended C8 at index 3. -/
theorem new_repeater_aux_channel_witness :
    (Repeater.new 3).auxno = (Repeater.new 3).repno + 1 ∧
    Repeater.newNoRouting 3 = Repeater.defaultRep ∧
    Repeater.defaultRep.auxno = 0 ∧ Repeater.defaultRep.repno = 0 :=
  new_repeater_aux_channel 3 (by decide)

theorem withLog_panicked (m : LogMsg) (out : SvcOut) (s : List Packet)
    (l : List LogMsg) (h : out.withLog m = SvcOut.panicked s l) :
    ∃ l0, out = SvcOut.panicked s l0 := by
  cases out with
  | panicked s0 l0 =>
    simp only [SvcOut.withLog, SvcOut.panicked.injEq] at h
    exact ⟨l0, by rw [h.1]⟩
  | unresolved s0 l0 => simp [SvcOut.withLog] at h
  | done st0 s0 l0 => simp [SvcOut.withLog] at h

/-- C3: every transmitted `EchoRequest` probe raises `ping_count` by
exactly one; a timeout retry re-enters `SendPing` with the count
unchanged and nothing sent; a timeout with the count above 200 forces
`Failed`; and every completed `service` call preserves the counter
bound (at most 200 entering `SendPing`, at most 201 in
`WaitPingReply`), so a bring-up attempt transmits at most 201 probes
before `Failed` is forced. -/
theorem ping_probe_discipline :
    (∀ n rt rank (env : ServiceEnv), env.linkUp = true → env.sendOk = true →
       n ≤ 200 →
       service (RepeaterState.SendPing n) rt rank env =
         SvcOut.done (RepeaterState.WaitPingReply (n + 1) (env.now + 100))
           [Packet.EchoRequest] []) ∧
    (∀ n t rt rank (env : ServiceEnv), env.linkUp = true →
       env.recv ≠ RecvResult.ok_some Packet.EchoReply → env.now > t →
       n ≤ 200 →
       service (RepeaterState.WaitPingReply n t) rt rank env =
         SvcOut.done (RepeaterState.SendPing n) [] []) ∧
    (∀ n t rt rank (env : ServiceEnv), env.linkUp = true →
       env.recv ≠ RecvResult.ok_some Packet.EchoReply → env.now > t →
       n > 200 →
       service (RepeaterState.WaitPingReply n t) rt rank env =
         SvcOut.done RepeaterState.Failed [] [LogMsg.pingFailed]) ∧
    (∀ st st' rt rank (env : ServiceEnv) sent logs, pingInv st →
       service st rt rank env = SvcOut.done st' sent logs → pingInv st') := by
  refine ⟨?_, ?_, ?_, ?_⟩
  · intro n rt rank env h1 h2 h3
    have hm : (n + 1) % 65536 = n + 1 := by omega
    simp [service, h1, h2, hm]
  · intro n t rt rank env h1 h2 h3 h4
    have h5 : ¬ n > 200 := by omega
    rcases hr : env.recv with _ | p | _
    · simp [service, h1, hr, h3, h5]
    · cases p
      case EchoReply => exact absurd hr h2
      all_goals simp [service, h1, hr, h3, h5]
    · simp [service, h1, hr, h3, h5]
  · intro n t rt rank env h1 h2 h3 h4
    rcases hr : env.recv with _ | p | _
    · simp [service, h1, hr, h3, h4]
    · cases p
      case EchoReply => exact absurd hr h2
      all_goals simp [service, h1, hr, h3, h4]
    · simp [service, h1, hr, h3, h4]
  · intro st st' rt rank env sent logs hinv hdone
    cases st with
    | Down =>
      cases hl : env.linkUp with
      | false =>
        simp [service, hl] at hdone
        obtain ⟨h', -, -⟩ := hdone
        subst h'
        trivial
      | true =>
        simp [service, hl] at hdone
        obtain ⟨h', -, -⟩ := hdone
        subst h'
        show (0 : Nat) ≤ 200
        omega
    | SendPing n =>
      have hn : n ≤ 200 := hinv
      cases hl : env.linkUp with
      | false =>
        simp [service, hl] at hdone
        obtain ⟨h', -, -⟩ := hdone
        subst h'
        trivial
      | true =>
        cases hs : env.sendOk with
        | false => simp [service, hl, hs] at hdone
        | true =>
          simp [service, hl, hs] at hdone
          obtain ⟨h', -, -⟩ := hdone
          subst h'
          show (n + 1) % 65536 ≤ 201
          omega
    | WaitPingReply n t =>
      have hn : n ≤ 201 := hinv
      cases hl : env.linkUp with
      | false =>
        simp [service, hl] at hdone
        obtain ⟨h', -, -⟩ := hdone
        subst h'
        trivial
      | true =>
        rcases hr : env.recv with _ | p | _
        case ok_some =>
          cases p
          case EchoReply =>
            simp only [service, hl, hr, if_true] at hdone
            obtain ⟨l0, hb, -⟩ := withLog_done _ _ _ _ _ hdone
            rcases (bringup_done_characterize rt rank env st' sent l0 hb).1
              with h' | h' <;> subst h' <;> trivial
          all_goals {
            by_cases ht : env.now > t
            · by_cases hc : n > 200
              · simp [service, hl, hr, ht, hc] at hdone
                obtain ⟨h', -, -⟩ := hdone
                subst h'
                trivial
              · simp [service, hl, hr, ht, hc] at hdone
                obtain ⟨h', -, -⟩ := hdone
                subst h'
                show n ≤ 200
                omega
            · simp [service, hl, hr, ht] at hdone
              obtain ⟨h', -, -⟩ := hdone
              subst h'
              exact hinv
          }
        all_goals {
          by_cases ht : env.now > t
          · by_cases hc : n > 200
            · simp [service, hl, hr, ht, hc] at hdone
              obtain ⟨h', -, -⟩ := hdone
              subst h'
              trivial
            · simp [service, hl, hr, ht, hc] at hdone
              obtain ⟨h', -, -⟩ := hdone
              subst h'
              show n ≤ 200
              omega
          · simp [service, hl, hr, ht] at hdone
            obtain ⟨h', -, -⟩ := hdone
            subst h'
            exact hinv
        }
    | Up =>
      cases hl : env.linkUp with
      | false =>
        simp [service, hl] at hdone
        obtain ⟨h', -, -⟩ := hdone
        subst h'
        trivial
      | true =>
        simp [service, hl] at hdone
        obtain ⟨h', -, -⟩ := hdone
        subst h'
        trivial
    | Failed =>
      cases hl : env.linkUp with
      | false =>
        simp [service, hl] at hdone
        obtain ⟨h', -, -⟩ := hdone
        subst h'
        trivial
      | true =>
        simp [service, hl] at hdone
        obtain ⟨h', -, -⟩ := hdone
        subst h'
        trivial

/-- Witness for C3: probe number 4 is sent and the count becomes 4. -/
theorem ping_probe_discipline_witness :
    service (RepeaterState.SendPing 3) [] 0
      ⟨true, 7, true, RecvResult.ok_none, defaultTxn, [], defaultTxn⟩ =
      SvcOut.done (RepeaterState.WaitPingReply 4 107) [Packet.EchoRequest] [] :=
  ping_probe_discipline.1 3 [] 0
    ⟨true, 7, true, RecvResult.ok_none, defaultTxn, [], defaultTxn⟩
    rfl rfl (by decide)

/-- C4 counterexample: in `WaitPingReply` with the link up and the ping
deadline not yet passed, a transport error reported by the non-blocking
aux receive is discarded: `service` returns with the state unchanged,
nothing sent and no log entry, and no error is surfaced. -/
theorem wait_ping_reply_swallows_recv_error :
    service (RepeaterState.WaitPingReply 1 100) [] 0 envRecvErr =
      SvcOut.done (RepeaterState.WaitPingReply 1 100) [] [] := rfl

/-- C4 amended: a transport error reported inside `recv_aux_timeout`
(the receive path of `sync_tsc`, `set_path` and `set_rank`) always
produces an error return, but in the `WaitPingReply` branch of
`service` a transport error from the non-blocking receive is treated
exactly like "no packet yet" and silently discarded. -/
theorem recv_error_amended :
    (∀ mt (o : PollObs) rest, o.linkUp = true → ¬ o.now > mt →
       o.recv = RecvResult.err →
       recv_aux_timeout_loop mt (o :: rest) = some (Except.error errAuxPacket)) ∧
    (∀ n t rt rank (env : ServiceEnv), env.recv = RecvResult.err →
       service (RepeaterState.WaitPingReply n t) rt rank env =
         service (RepeaterState.WaitPingReply n t) rt rank
           { env with recv := RecvResult.ok_none }) := by
  refine ⟨?_, ?_⟩
  · intro mt o rest h1 h2 h3
    simp [recv_aux_timeout_loop, h1, h2, h3]
  · intro n t rt rank env h
    cases hl : env.linkUp with
    | false => simp [service, hl]
    | true => simp [service, hl, h]

/-- Witness for the amended C4. -/
theorem recv_error_amended_witness :
    recv_aux_timeout_loop 200 [⟨true, 5, RecvResult.err⟩] =
      some (Except.error errAuxPacket) :=
  recv_error_amended.1 200 ⟨true, 5, RecvResult.err⟩ [] rfl (by decide) rfl

/-- C9: a failed aux send panics via `unwrap` in the `SendPing` arm of
`service`, in `set_path` and in `set_rank`; when every send succeeds,
none of these operations and no `service` call panics. -/
theorem send_failure_panics :
    (∀ n rt rank (env : ServiceEnv), env.linkUp = true → env.sendOk = false →
       service (RepeaterState.SendPing n) rt rank env =
         SvcOut.panicked [Packet.EchoRequest] []) ∧
    (∀ d hops (env : TxnEnv), env.sendOk = false →
       set_path RepeaterState.Up d hops env =
         OpOut.panicked [Packet.RoutingSetPath d hops]) ∧
    (∀ r (env : TxnEnv), env.sendOk = false →
       set_rank RepeaterState.Up r env =
         OpOut.panicked [Packet.RoutingSetRank r]) ∧
    (∀ d hops (env : TxnEnv) s, env.sendOk = true →
       set_path RepeaterState.Up d hops env ≠ OpOut.panicked s) ∧
    (∀ r (env : TxnEnv) s, env.sendOk = true →
       set_rank RepeaterState.Up r env ≠ OpOut.panicked s) ∧
    (∀ st rt rank (env : ServiceEnv) sent logs, env.sendOk = true →
       env.rankEnv.sendOk = true → (∀ e ∈ env.routeEnvs, e.sendOk = true) →
       service st rt rank env ≠ SvcOut.panicked sent logs) := by
  refine ⟨?_, ?_, ?_, ?_, ?_, ?_⟩
  · intro n rt rank env h1 h2
    simp [service, h1, h2]
  · intro d hops env h
    simp [set_path, set_path_run, h]
  · intro r env h
    simp [set_rank, set_rank_run, h]
  · exact fun d hops env s h => set_path_no_panic d hops env h s
  · exact fun r env s h => set_rank_no_panic r env h s
  · intro st rt rank env sent logs h1 h2 h3
    cases st with
    | Down => cases hl : env.linkUp <;> simp [service, hl]
    | SendPing n => cases hl : env.linkUp <;> simp [service, hl, h1]
    | Up => cases hl : env.linkUp <;> simp [service, hl]
    | Failed => cases hl : env.linkUp <;> simp [service, hl]
    | WaitPingReply n t =>
      cases hl : env.linkUp with
      | false => simp [service, hl]
      | true =>
        rcases hr : env.recv with _ | p | _
        case ok_some =>
          cases p
          case EchoReply =>
            simp only [service, hl, hr, if_true]
            intro hcon
            obtain ⟨l0, hb⟩ := withLog_panicked _ _ _ _ hcon
            exact bringup_no_panic rt rank env h2 h3 sent l0 hb
          all_goals {
            by_cases ht : env.now > t
            · by_cases hc : n > 200 <;> simp [service, hl, hr, ht, hc]
            · simp [service, hl, hr, ht]
          }
        all_goals {
          by_cases ht : env.now > t
          · by_cases hc : n > 200 <;> simp [service, hl, hr, ht, hc]
          · simp [service, hl, hr, ht]
        }

/-- Witness for C9: the `SendPing` arm panics on a failed send. -/
theorem send_failure_panics_witness :
    service (RepeaterState.SendPing 0) [] 0
      ⟨true, 0, false, RecvResult.ok_none, defaultTxn, [], defaultTxn⟩ =
      SvcOut.panicked [Packet.EchoRequest] [] :=
  send_failure_panics.1 0 [] 0
    ⟨true, 0, false, RecvResult.ok_none, defaultTxn, [], defaultTxn⟩ rfl rfl

/-- C10: in the `EchoReply` branch the state has already been assigned
`Up` when the three bring-up operations run, so each runs its unguarded
body (the not-`Up` no-op guard never fires); a transient `Up` state
therefore exists inside the call even when a later step fails and the
call returns with state `Failed`, as the final concrete equation
shows. -/
theorem bringup_runs_with_state_up :
    (∀ n t rt rank (env : ServiceEnv), env.linkUp = true →
       env.recv = RecvResult.ok_some Packet.EchoReply →
       service (RepeaterState.WaitPingReply n t) rt rank env =
         (bringup RepeaterState.Up rt rank env).withLog
           (LogMsg.remoteReplied n)) ∧
    (∀ env, sync_tsc RepeaterState.Up env = sync_tsc_run env) ∧
    (∀ d hops env, set_path RepeaterState.Up d hops env =
       set_path_run d hops env) ∧
    (∀ r env, set_rank RepeaterState.Up r env = set_rank_run r env) ∧
    (service (RepeaterState.WaitPingReply 0 0) [] 0 envSyncWrongReply =
       SvcOut.done RepeaterState.Failed []
         [LogMsg.remoteReplied 0, LogMsg.failedSyncTSC errUnexpectedReply]) := by
  refine ⟨?_, ?_, ?_, ?_, rfl⟩
  · intro n t rt rank env h1 h2
    simp [service, h1, h2]
  · intro env
    simp [sync_tsc]
  · intro d hops env
    simp [set_path]
  · intro r env
    simp [set_rank]

/-- Witness for C10 at a concrete successful environment. -/
theorem bringup_runs_with_state_up_witness :
    service (RepeaterState.WaitPingReply 2 9) [] 0 envAllOk =
      (bringup RepeaterState.Up [] 0 envAllOk).withLog (LogMsg.remoteReplied 2) :=
  bringup_runs_with_state_up.1 2 9 [] 0 envAllOk rfl rfl

theorem headD_getD (envs : List TxnEnv) :
    envs.headD defaultTxn = envs.getD 0 defaultTxn := by
  cases envs <;> simp

theorem tail_getD (envs : List TxnEnv) (j : Nat) :
    envs.tail.getD j defaultTxn = envs.getD (j + 1) defaultTxn := by
  cases envs <;> simp


theorem load_rt_go_cons_panicked (st : RepeaterState) (i : Nat)
    (hops : List Nat) (rest : List (List Nat)) (envs : List TxnEnv)
    (s1 : List Packet)
    (h : set_path st (i % 256) hops (envs.headD defaultTxn) =
      OpOut.panicked s1) :
    load_rt_go st i (hops :: rest) envs = OpOut.panicked s1 := by
  simp only [load_rt_go, h]

theorem load_rt_go_cons_unresolved (st : RepeaterState) (i : Nat)
    (hops : List Nat) (rest : List (List Nat)) (envs : List TxnEnv)
    (s1 : List Packet)
    (h : set_path st (i % 256) hops (envs.headD defaultTxn) =
      OpOut.unresolved s1) :
    load_rt_go st i (hops :: rest) envs = OpOut.unresolved s1 := by
  simp only [load_rt_go, h]

theorem load_rt_go_cons_error (st : RepeaterState) (i : Nat)
    (hops : List Nat) (rest : List (List Nat)) (envs : List TxnEnv)
    (e1 : String) (s1 : List Packet)
    (h : set_path st (i % 256) hops (envs.headD defaultTxn) =
      OpOut.ret (Except.error e1) s1) :
    load_rt_go st i (hops :: rest) envs = OpOut.ret (Except.error e1) s1 := by
  simp only [load_rt_go, h]

theorem load_rt_go_cons_ok_panicked (st : RepeaterState) (i : Nat)
    (hops : List Nat) (rest : List (List Nat)) (envs : List TxnEnv)
    (s1 s2 : List Packet)
    (h1 : set_path st (i % 256) hops (envs.headD defaultTxn) =
      OpOut.ret (Except.ok ()) s1)
    (h2 : load_rt_go st (i + 1) rest envs.tail = OpOut.panicked s2) :
    load_rt_go st i (hops :: rest) envs = OpOut.panicked (s1 ++ s2) := by
  simp only [load_rt_go, h1, h2]

theorem load_rt_go_cons_ok_unresolved (st : RepeaterState) (i : Nat)
    (hops : List Nat) (rest : List (List Nat)) (envs : List TxnEnv)
    (s1 s2 : List Packet)
    (h1 : set_path st (i % 256) hops (envs.headD defaultTxn) =
      OpOut.ret (Except.ok ()) s1)
    (h2 : load_rt_go st (i + 1) rest envs.tail = OpOut.unresolved s2) :
    load_rt_go st i (hops :: rest) envs = OpOut.unresolved (s1 ++ s2) := by
  simp only [load_rt_go, h1, h2]

theorem load_rt_go_cons_ok_ret (st : RepeaterState) (i : Nat)
    (hops : List Nat) (rest : List (List Nat)) (envs : List TxnEnv)
    (s1 s2 : List Packet) (r2 : Except String Unit)
    (h1 : set_path st (i % 256) hops (envs.headD defaultTxn) =
      OpOut.ret (Except.ok ()) s1)
    (h2 : load_rt_go st (i + 1) rest envs.tail = OpOut.ret r2 s2) :
    load_rt_go st i (hops :: rest) envs = OpOut.ret r2 (s1 ++ s2) := by
  simp only [load_rt_go, h1, h2]

theorem load_rt_go_send_spec (rt : List (List Nat)) :
    ∀ (i : Nat) (envs : List TxnEnv),
    ((load_rt_go RepeaterState.Up i rt envs).sent.length ≤ rt.length) ∧
    (∃ k, k ≤ rt.length ∧
       (load_rt_go RepeaterState.Up i rt envs).sent =
         routing_pkts i (rt.take k)) ∧
    ((load_rt_go RepeaterState.Up i rt envs).isOk = true →
       (load_rt_go RepeaterState.Up i rt envs).sent = routing_pkts i rt) ∧
    (∀ e s, load_rt_go RepeaterState.Up i rt envs =
        OpOut.ret (Except.error e) s →
       ∃ k, k < rt.length ∧ s = routing_pkts i (rt.take (k + 1)) ∧
         set_path RepeaterState.Up ((i + k) % 256) (rt.getD k [])
             (envs.getD k defaultTxn) =
           OpOut.ret (Except.error e)
             [Packet.RoutingSetPath ((i + k) % 256) (rt.getD k [])] ∧
         (∀ j, j < k →
            (set_path RepeaterState.Up ((i + j) % 256) (rt.getD j [])
                (envs.getD j defaultTxn)).isOk = true)) := by
  induction rt with
  | nil =>
    intro i envs
    refine ⟨?_, ⟨0, Nat.le_refl 0, ?_⟩, ?_, ?_⟩
    · simp [load_rt_go, OpOut.sent]
    · simp [load_rt_go, OpOut.sent, routing_pkts]
    · intro _; simp [load_rt_go, OpOut.sent, routing_pkts]
    · intro e s h; simp [load_rt_go] at h
  | cons hops rest ih =>
    intro i envs
    rcases hsp : set_path RepeaterState.Up (i % 256) hops (envs.headD defaultTxn)
      with s1 | s1 | ⟨r1, s1⟩
    · have hs1 : s1 = [Packet.RoutingSetPath (i % 256) hops] := by
        have h := set_path_up_sent (i % 256) hops (envs.headD defaultTxn)
        rw [hsp] at h
        exact h
      have hld := load_rt_go_cons_panicked RepeaterState.Up i hops rest envs s1 hsp
      refine ⟨?_, ⟨1, ?_, ?_⟩, ?_, ?_⟩
      · simp [hld, OpOut.sent, hs1]
      · simp
      · simp [hld, OpOut.sent, hs1, routing_pkts]
      · intro hcon; rw [hld] at hcon; simp [OpOut.isOk] at hcon
      · intro e s h; rw [hld] at h; simp at h
    · have hs1 : s1 = [Packet.RoutingSetPath (i % 256) hops] := by
        have h := set_path_up_sent (i % 256) hops (envs.headD defaultTxn)
        rw [hsp] at h
        exact h
      have hld := load_rt_go_cons_unresolved RepeaterState.Up i hops rest envs s1 hsp
      refine ⟨?_, ⟨1, ?_, ?_⟩, ?_, ?_⟩
      · simp [hld, OpOut.sent, hs1]
      · simp
      · simp [hld, OpOut.sent, hs1, routing_pkts]
      · intro hcon; rw [hld] at hcon; simp [OpOut.isOk] at hcon
      · intro e s h; rw [hld] at h; simp at h
    · have hs1 : s1 = [Packet.RoutingSetPath (i % 256) hops] := by
        have h := set_path_up_sent (i % 256) hops (envs.headD defaultTxn)
        rw [hsp] at h
        exact h
      cases r1 with
      | error e1 =>
        have hld := load_rt_go_cons_error RepeaterState.Up i hops rest envs e1 s1 hsp
        refine ⟨?_, ⟨1, ?_, ?_⟩, ?_, ?_⟩
        · simp [hld, OpOut.sent, hs1]
        · simp
        · simp [hld, OpOut.sent, hs1, routing_pkts]
        · intro hcon; rw [hld] at hcon; simp [OpOut.isOk] at hcon
        · intro e s h
          rw [hld] at h
          simp only [OpOut.ret.injEq, Except.error.injEq] at h
          obtain ⟨he, hs⟩ := h
          subst he
          subst hs
          refine ⟨0, by simp, ?_, ?_, ?_⟩
          · rw [hs1]; simp [routing_pkts]
          · simp only [Nat.add_zero, List.getD_cons_zero, ← headD_getD]
            rw [hsp, hs1]
          · intro j hj; exact absurd hj (Nat.not_lt_zero j)
      | ok u =>
        cases u
        obtain ⟨ih1, ⟨k2, hk2, hsent2⟩, ih3, ih4⟩ := ih (i + 1) envs.tail
        rcases hl2 : load_rt_go RepeaterState.Up (i + 1) rest envs.tail
          with s2 | s2 | ⟨r2, s2⟩
        · have hld := load_rt_go_cons_ok_panicked RepeaterState.Up i hops rest
            envs s1 s2 hsp hl2
          rw [hl2] at ih1 hsent2
          simp only [OpOut.sent] at ih1 hsent2
          refine ⟨?_, ⟨k2 + 1, ?_, ?_⟩, ?_, ?_⟩
          · simp only [hld, OpOut.sent, hs1]
            simp [List.length_append]
            omega
          · simp
            omega
          · simp only [hld, OpOut.sent, hs1, List.take_succ_cons, routing_pkts]
            simp [hsent2]
          · intro hcon; rw [hld] at hcon; simp [OpOut.isOk] at hcon
          · intro e s h; rw [hld] at h; simp at h
        · have hld := load_rt_go_cons_ok_unresolved RepeaterState.Up i hops rest
            envs s1 s2 hsp hl2
          rw [hl2] at ih1 hsent2
          simp only [OpOut.sent] at ih1 hsent2
          refine ⟨?_, ⟨k2 + 1, ?_, ?_⟩, ?_, ?_⟩
          · simp only [hld, OpOut.sent, hs1]
            simp [List.length_append]
            omega
          · simp
            omega
          · simp only [hld, OpOut.sent, hs1, List.take_succ_cons, routing_pkts]
            simp [hsent2]
          · intro hcon; rw [hld] at hcon; simp [OpOut.isOk] at hcon
          · intro e s h; rw [hld] at h; simp at h
        · have hld := load_rt_go_cons_ok_ret RepeaterState.Up i hops rest
            envs s1 s2 r2 hsp hl2
          rw [hl2] at ih1 hsent2 ih3
          simp only [OpOut.sent] at ih1 hsent2
          refine ⟨?_, ⟨k2 + 1, ?_, ?_⟩, ?_, ?_⟩
          · simp only [hld, OpOut.sent, hs1]
            simp [List.length_append]
            omega
          · simp
            omega
          · simp only [hld, OpOut.sent, hs1, List.take_succ_cons, routing_pkts]
            simp [hsent2]
          · intro hcon
            rw [hld] at hcon
            have hok : r2 = Except.ok () := by
              cases r2 with
              | ok u2 => cases u2; rfl
              | error e2 => simp [OpOut.isOk] at hcon
            subst hok
            have h3 := ih3 (by simp [OpOut.isOk])
            simp only [OpOut.sent] at h3
            simp only [hld, OpOut.sent, hs1, routing_pkts]
            simp [h3]
          · intro e s h
            rw [hld] at h
            cases r2 with
            | ok u2 => simp at h
            | error e2 =>
              simp only [OpOut.ret.injEq, Except.error.injEq] at h
              obtain ⟨he, hs⟩ := h
              subst he
              obtain ⟨k3, hk3, hs3, hsp3, hall3⟩ := ih4 e2 s2 hl2
              refine ⟨k3 + 1, ?_, ?_, ?_, ?_⟩
              · simp
                omega
              · rw [← hs, hs1, hs3]
                simp [routing_pkts, List.take_succ_cons]
              · have harith : i + (k3 + 1) = i + 1 + k3 := by omega
                rw [harith]
                simp only [List.getD_cons_succ, ← tail_getD]
                exact hsp3
              · intro j hj
                cases j with
                | zero =>
                  simp only [Nat.add_zero, List.getD_cons_zero, ← headD_getD,
                    hsp, OpOut.isOk]
                | succ j' =>
                  have harith : i + (j' + 1) = i + 1 + j' := by omega
                  rw [harith]
                  simp only [List.getD_cons_succ, ← tail_getD]
                  exact hall3 j' (by omega)

/-- C7: over a table of `N` destinations, `load_routing_table` at `Up`
sends at most `N` `RoutingSetPath` requests, always an initial segment
of the table in destination order; success means all `N` were sent, and
an error return means the loop stopped at the first destination `k`
whose transaction failed, propagating exactly that error with entries
`0..k-1` acknowledged and nothing after `k` sent. -/
theorem load_routing_table_send_discipline (rt : List (List Nat))
    (envs : List TxnEnv) :
    ((load_routing_table RepeaterState.Up rt envs).sent.length ≤ rt.length) ∧
    (∃ k, k ≤ rt.length ∧
       (load_routing_table RepeaterState.Up rt envs).sent =
         routing_pkts 0 (rt.take k)) ∧
    ((load_routing_table RepeaterState.Up rt envs).isOk = true →
       (load_routing_table RepeaterState.Up rt envs).sent = routing_pkts 0 rt) ∧
    (∀ e s, load_routing_table RepeaterState.Up rt envs =
        OpOut.ret (Except.error e) s →
       ∃ k, k < rt.length ∧ s = routing_pkts 0 (rt.take (k + 1)) ∧
         set_path_at rt envs k =
           OpOut.ret (Except.error e)
             [Packet.RoutingSetPath (k % 256) (rt.getD k [])] ∧
         (∀ j, j < k → (set_path_at rt envs j).isOk = true)) := by
  have h := load_rt_go_send_spec rt 0 envs
  simpa [load_routing_table, set_path_at] using h

/-- Witness for C7: a two-entry table whose second acknowledgment is
wrong stops after sending exactly the first two packets and reports the
unexpected-reply error for destination 1. -/
theorem load_routing_table_send_discipline_witness :
    ∃ k, k < ([[1], [2]] : List (List Nat)).length ∧
      [Packet.RoutingSetPath 0 [1], Packet.RoutingSetPath 1 [2]] =
        routing_pkts 0 (([[1], [2]] : List (List Nat)).take (k + 1)) ∧
      set_path_at [[1], [2]]
          [⟨true, 0, [⟨true, 0, RecvResult.ok_some Packet.RoutingAck⟩]⟩,
           ⟨true, 0, [⟨true, 0, RecvResult.ok_some Packet.TSCAck⟩]⟩] k =
        OpOut.ret (Except.error errUnexpectedReply)
          [Packet.RoutingSetPath (k % 256)
            (([[1], [2]] : List (List Nat)).getD k [])] ∧
      (∀ j, j < k →
        (set_path_at [[1], [2]]
            [⟨true, 0, [⟨true, 0, RecvResult.ok_some Packet.RoutingAck⟩]⟩,
             ⟨true, 0, [⟨true, 0, RecvResult.ok_some Packet.TSCAck⟩]⟩]
            j).isOk = true) :=
  (load_routing_table_send_discipline [[1], [2]]
    [⟨true, 0, [⟨true, 0, RecvResult.ok_some Packet.RoutingAck⟩]⟩,
     ⟨true, 0, [⟨true, 0, RecvResult.ok_some Packet.TSCAck⟩]⟩]).2.2.2
    errUnexpectedReply
    [Packet.RoutingSetPath 0 [1], Packet.RoutingSetPath 1 [2]] rfl
